import Mathlib

/-!
Verification development for the `openai-nim-proxy2` repository: a set of
serverless HTTP handlers that translate OpenAI-shaped chat-completion
requests into NVIDIA NIM requests and reshape the responses.

The definitions below are a shallow embedding of the JavaScript sources:

* `api/v1/chat/completions.js` (the main handler: validation, model
  mapping, message truncation, token clamping, response extraction,
  envelope composition) is embedded as `v1Pre`, `v1Shape`,
  `extractContent`, `extractFromReasoning`, `processUpstream`, `v1Post`
  and `v1Handler`;
* `api/chat.js` (the legacy handler) is embedded, at the fidelity its
  claims require, as `chatJs`.

JavaScript strings are modelled as Lean `String`; `undefined`/`null`
are modelled as `Option.none`; JS string truthiness is `strTruthy`;
JS number truthiness (in `x || d` defaulting) is `numOr`.  `trim`,
`split('\n')` and `includes` are modelled at the character-list level
over the ASCII whitespace set, matching their behaviour on the ASCII
data the handlers manipulate.  Wall-clock dependent values (the
synthetic `id`, `created`, elapsed-time fragments inside error
messages, and log output) are not modelled; error messages are kept
only where a claim mentions the error identity.
-/

/-- ASCII whitespace, the character class relevant to trimming here. -/
def isWs (c : Char) : Bool := c == ' ' || c == '\t' || c == '\n' || c == '\r'

/-- Character-level trim: drop whitespace from both ends (JS `String.trim`). -/
def trimChars (l : List Char) : List Char :=
  ((l.dropWhile isWs).reverse.dropWhile isWs).reverse

/-- JS `s.split('\n')`: split into segments at newline characters,
keeping empty segments. -/
def splitNl : List Char → List (List Char)
  | [] => [[]]
  | c :: tl =>
    let r := splitNl tl
    if c == '\n' then [] :: r
    else
      match r with
      | h :: t => (c :: h) :: t
      | [] => [[c]]

/-- JS `arr.slice(-k)` on a list: the last `k` elements (all of them when
the list is shorter). -/
def sliceLast (l : List α) (k : Nat) : List α := l.drop (l.length - k)

/-- The last `n` elements of a list, written the way the specification
reads ("the last K elements in original order"). -/
def lastN (l : List α) (n : Nat) : List α := (l.reverse.take n).reverse

/-- Case-sensitive "starts with" on character lists. -/
def charStarts : List Char → List Char → Bool
  | [], _ => true
  | _ :: _, [] => false
  | a :: as, b :: bs => (a == b) && charStarts as bs

/-- Case-sensitive substring test, JS `s.includes(pat)`. -/
def charContains (pat : List Char) : List Char → Bool
  | [] => pat.isEmpty
  | l@(_ :: tl) => charStarts pat l || charContains pat tl

/-- JS `s.includes(pat)` on strings. -/
def strIncludes (s pat : String) : Bool := charContains pat.toList s.toList

/-- Case-insensitive "starts with" (the regex `i` flag on ASCII). -/
def ciStarts : List Char → List Char → Bool
  | [], _ => true
  | _ :: _, [] => false
  | a :: as, b :: bs => (a.toLower == b.toLower) && ciStarts as bs

/-- JS string truthiness of a possibly-absent string: `undefined`, `null`
and `''` are falsy, every other string is truthy. -/
def strTruthy : Option String → Bool
  | none => false
  | some s => !(s == "")

/-- JS `x || d` for a possibly-absent number: `undefined`/`null` and `0`
are falsy and give the default. -/
def numOr (x : Option Int) (d : Int) : Int :=
  match x with
  | none => d
  | some v => if v = 0 then d else v

/-- JS `x || d` for a possibly-absent string: absent and `''` give the
default. -/
def strOr (x : Option String) (d : String) : String :=
  match x with
  | none => d
  | some s => if s = "" then d else s

/-! ### Reasoning-trace extraction (`completions.js` lines 165-190)

The source runs `reasoning.match(/(?:Final Answer|Answer|Result|Output):\s*(.+)/is)`.
Because the four alternatives begin with pairwise distinct letters
(`f`, `a`, `r`, `o`), at most one alternative can match at a given
position, so the regex engine's behaviour is: scan positions left to
right; at the first position where some label followed by `:` matches
case-insensitively *and at least one character remains after the
colon* (`\s*(.+)` with the `s` flag needs one character, possibly
whitespace), the match succeeds and `match[1].trim()` equals the trim
of the entire remainder after the colon.  Positions where a label and
colon match but nothing follows are skipped, exactly as the engine
retries from the next index. -/

/-- The label alternatives of the regex, in source order. -/
def labelList : List String := ["Final Answer", "Answer", "Result", "Output"]

/-- If one of the labels followed by `:` matches (case-insensitively) at
the head of `l`, return the remaining characters after the colon. -/
def labelRestAt (l : List Char) : Option (List Char) :=
  labelList.findSome? fun lab =>
    let p := (lab ++ ":").toList
    if ciStarts p l then some (l.drop p.length) else none

/-- Left-to-right scan of the regex engine: the remainder after the first
label-and-colon occurrence that is followed by at least one character. -/
def findLabelRest : List Char → Option (List Char)
  | [] => none
  | a :: tl =>
    match labelRestAt (a :: tl) with
    | some r => if r.isEmpty then findLabelRest tl else some r
    | none => findLabelRest tl

/-- `reasoning.split('\n').filter(line => line.trim())`: the non-blank
lines of the trace. -/
def nonBlankLines (s : String) : List (List Char) :=
  (splitNl s.toList).filter (fun l => !(trimChars l).isEmpty)

/-- Lines 169-190 of `completions.js`: recover a final answer from a
reasoning trace.  Label hit: trimmed remainder after the colon; else the
last three non-blank lines joined with newlines and trimmed; else (no
non-blank line at all) the whole trace verbatim. -/
def extractFromReasoning (r : String) : String :=
  match findLabelRest r.toList with
  | some rest => String.mk (trimChars rest)
  | none =>
    if (nonBlankLines r).length > 0 then
      String.mk (trimChars (List.intercalate ['\n'] (sliceLast (nonBlankLines r) 3)))
    else r

example : extractFromReasoning "Thinking...\nFinal Answer: 42" = "42" := by decide
example : extractFromReasoning "line1\nline2\nline3\nline4" = "line2\nline3\nline4" := by
  decide
example : extractFromReasoning "Answer:" = "Answer:" := by decide
example : extractFromReasoning "x\nAnswer:   " = "" := by decide
example : extractFromReasoning "   \n  " = "   \n  " := by decide

/-! ### Specification-side trace recovery

`specRecover` formalises the specification's description of the
trace-recovery heuristic (spec section 4.4, step 2), written as a
position-based search instead of the engine's recursive scan: the
result is determined by the first position at which some label
followed by `:` matches, and the reply is the trimmed suffix after the
colon to the end of the trace.  `specRecoverOrig` renders the
specification sentence exactly as written — a label-and-colon hit
counts even when nothing follows the colon; `specRecover` adds the
one correction the code forces: the hit must be followed by at least
one character. -/

/-- A label-and-colon hit at position `i` that is followed by at least
one further character. -/
def specGoodAt (l : List Char) (i : Nat) : Bool :=
  match labelRestAt (l.drop i) with
  | some r => !r.isEmpty
  | none => false

/-- A label-and-colon hit at position `i`, regardless of what follows
(the specification's wording, taken literally). -/
def specGoodAtOrig (l : List Char) (i : Nat) : Bool :=
  (labelRestAt (l.drop i)).isSome

/-- First position of a followed label-and-colon hit. -/
def specHit (l : List Char) : Option Nat := (List.range l.length).find? (specGoodAt l)

/-- First position of a label-and-colon hit (literal wording). -/
def specHitOrig (l : List Char) : Option Nat :=
  (List.range l.length).find? (specGoodAtOrig l)

/-- The suffix after the label and colon matching at position `i`. -/
def specRestAt (l : List Char) (i : Nat) : List Char :=
  (labelRestAt (l.drop i)).getD []

/-- The specification's trace recovery, amended with the
"at least one character after the colon" condition. -/
def specRecover (r : String) : String :=
  match specHit r.toList with
  | some i => String.mk (trimChars (specRestAt r.toList i))
  | none =>
    if (nonBlankLines r).isEmpty then r
    else String.mk (trimChars (List.intercalate ['\n'] (lastN (nonBlankLines r) 3)))

/-- The specification's trace recovery exactly as worded: any
label-and-colon occurrence triggers the label branch. -/
def specRecoverOrig (r : String) : String :=
  match specHitOrig r.toList with
  | some i => String.mk (trimChars (specRestAt r.toList i))
  | none =>
    if (nonBlankLines r).isEmpty then r
    else String.mk (trimChars (List.intercalate ['\n'] (lastN (nonBlankLines r) 3)))

/-! ### Data model of the main handler (`api/v1/chat/completions.js`) -/

/-- The `type` discriminators of the caller-facing error envelope. -/
inductive ErrType
  | invalid_request_error
  | server_error
  | timeout_error
  | rate_limit_error
  | authentication_error
  | api_error
  | empty_response_error
deriving DecidableEq

/-- A caller-facing error envelope `{error: {message, type}}` (the
optional `code`/`details`/`model` enrichments carry no claim weight and
are not modelled). -/
structure ErrorInfo where
  message : String
  type : ErrType
deriving DecidableEq

/-- One chat message: a role/content pair. -/
structure ChatMessage where
  role : String
  content : String
deriving DecidableEq

/-- The inbound `messages` field as the JS sees it: absent (or another
falsy value), a truthy non-array value, or an array of messages. -/
inductive MessagesField
  | missing
  | nonArray
  | array (ms : List ChatMessage)
deriving DecidableEq

/-- The deconstructed inbound request body
`const { model, messages, temperature, max_tokens } = req.body`. -/
structure RequestBody where
  model : Option String
  messages : MessagesField
  temperature : Option Rat
  max_tokens : Option Int

/-- The outbound NVIDIA request (`nimRequest`). -/
structure NimRequest where
  model : String
  messages : List ChatMessage
  temperature : Rat
  top_p : Rat
  max_tokens : Int
  stream : Bool

/-- The `usage` counters passed through on success. -/
structure Usage where
  prompt_tokens : Int
  completion_tokens : Int
  total_tokens : Int
deriving DecidableEq

/-- One choice of the caller-facing success envelope. -/
structure RespChoice where
  index : Nat
  message : ChatMessage
  finish_reason : String
deriving DecidableEq

/-- The caller-facing success envelope (`id` and `created` are
wall-clock derived and not modelled; `logprobs`/`system_fingerprint`
are the constant `null`). -/
structure SuccessBody where
  model : String
  choices : List RespChoice
  usage : Usage
deriving DecidableEq

/-- The body of an HTTP reply produced by the handler. -/
inductive ReplyBody
  | empty
  | err (e : ErrorInfo)
  | success (s : SuccessBody)
deriving DecidableEq

/-- An HTTP reply: the status passed to `res.status(...)` and the body. -/
structure HttpReply where
  status : Nat
  body : ReplyBody
deriving DecidableEq

/-- `choices[0].message` of the upstream response. -/
structure UpstreamMessage where
  content : Option String
  reasoning_content : Option String
  text : Option String
deriving DecidableEq

/-- One upstream choice.  `delta_content` models `choice.delta?.content`
and `content` models `choice.content`; the main handler never reads
them, but the upstream response may carry them. -/
structure UpstreamChoice where
  message : Option UpstreamMessage
  text : Option String
  delta_content : Option String
  content : Option String
  finish_reason : Option String
deriving DecidableEq

/-- The parsed JSON body of a 2xx upstream response. -/
structure UpstreamData where
  choices : Option (List UpstreamChoice)
  usage : Option Usage
deriving DecidableEq

/-- What the `fetch` call produced, as the handler distinguishes it:
an abort (timeout), another fetch exception (rethrown and caught by
the outer handler), a non-2xx status, or a parsed 2xx JSON body. -/
inductive TransportResult
  | aborted
  | fetchFailed
  | httpError (status : Nat)
  | okJson (d : UpstreamData)

/-- The static model-name table of `api/v1/chat/completions.js`. -/
def MODEL_MAPPING : List (String × String) :=
  [("gpt-3.5-turbo", "meta/llama-3.1-8b-instruct"),
   ("gpt-4", "z-ai/glm4.7"),
   ("gpt-4-turbo", "z-ai/glm4.7"),
   ("gpt-4o", "deepseek-ai/deepseek-v3.1"),
   ("claude-3-opus", "deepseek-ai/deepseek-v3.1"),
   ("claude-3-sonnet", "z-ai/glm4.7"),
   ("gemini-pro", "meta/llama-3.1-8b-instruct")]

/-! ### The pre-call pipeline of the main handler (lines 17-76) -/

/-- Lines 44-48: `if (!messages || !Array.isArray(messages))` reject with
`invalid_request_error`; otherwise hand the array on.  Note the check
does not look at the length of the array. -/
def v1Validate (body : RequestBody) : Except ErrorInfo (List ChatMessage) :=
  match body.messages with
  | .array ms => .ok ms
  | _ => .error ⟨"Invalid messages", .invalid_request_error⟩

/-- Line 55: `nimModel.includes('z-ai') || nimModel.includes('deepseek')`. -/
def isSlowModel (nimModel : String) : Bool :=
  strIncludes nimModel "z-ai" || strIncludes nimModel "deepseek"

/-- The truncation window: 4 messages on the slow tier, 10 otherwise. -/
def windowK (slow : Bool) : Nat := if slow then 4 else 10

/-- Lines 56 and 60: `messages.slice(-4)` resp. `messages.slice(-10)`. -/
def limitMessages (slow : Bool) (ms : List ChatMessage) : List ChatMessage :=
  sliceLast ms (windowK slow)

/-- Lines 57 and 61: `Math.min(max_tokens || 512, 1024)` on the slow
tier, `Math.min(max_tokens || 1024, 2048)` otherwise. -/
def clampTokens (slow : Bool) (mt : Option Int) : Int :=
  if slow then min (numOr mt 512) 1024 else min (numOr mt 1024) 2048

/-- Lines 50-76: resolve the model name, truncate, clamp, and build the
outbound request.  Returns the resolved caller-facing model name (used
later to label the response) together with the outbound payload. -/
def v1Shape (body : RequestBody) (ms : List ChatMessage) : String × NimRequest :=
  let requestModel := strOr body.model "gpt-4o"
  let nimModel := ((MODEL_MAPPING.lookup requestModel).getD "deepseek-ai/deepseek-v3.1")
  let slow := isSlowModel nimModel
  (requestModel,
    { model := nimModel
      messages := limitMessages slow ms
      temperature := body.temperature.getD (7 / 10 : Rat)
      top_p := (9 / 10 : Rat)
      max_tokens := clampTokens slow body.max_tokens
      stream := false })

/-- Everything the main handler does before the outbound `fetch`
(lines 17-76): CORS short-circuit, method check, API-key check,
`messages` validation, shaping.  A `.error` result means the handler
replied without contacting the upstream; a `.ok` result is the pair
(resolved caller-facing model, outbound request) with which the
transport is invoked. -/
def v1Pre (apiKey : Option String) (method : String) (body : RequestBody) :
    Except HttpReply (String × NimRequest) :=
  if method = "OPTIONS" then .error ⟨200, .empty⟩
  else if method ≠ "POST" then
    .error ⟨200, .err ⟨"Method not allowed", .invalid_request_error⟩⟩
  else if strTruthy apiKey = false then
    .error ⟨200, .err ⟨"API key not configured", .server_error⟩⟩
  else
    match v1Validate body with
    | .error e => .error ⟨200, .err e⟩
    | .ok ms => .ok (v1Shape body ms)

/-- Whether the pre-call pipeline reached the outbound transport call. -/
def madeUpstreamCall (x : Except HttpReply (String × NimRequest)) : Bool :=
  match x with
  | .ok _ => true
  | .error _ => false

/-! ### Response extraction and composition (lines 115-237) -/

/-- Optional-chained access `choice.message?.f`. -/
def msgField (c : UpstreamChoice) (f : UpstreamMessage → Option String) : Option String :=
  match c.message with
  | some m => f m
  | none => none

/-- Lines 155-197: the if/else chain that fills `content`.  Preference
order: `message.content` when truthy; else the reasoning-trace
recovery on a truthy `message.reasoning_content`; else `choice.text`;
else `choice.message?.text`; else the empty string.  `choice.delta`
and `choice.content` are never consulted. -/
def extractContent (c : UpstreamChoice) : String :=
  if strTruthy (msgField c (·.content)) then (msgField c (·.content)).getD ""
  else if strTruthy (msgField c (·.reasoning_content)) then
    extractFromReasoning ((msgField c (·.reasoning_content)).getD "")
  else if strTruthy c.text then c.text.getD ""
  else if strTruthy (msgField c (·.text)) then (msgField c (·.text)).getD ""
  else ""

/-- Lines 145-237: handling of a parsed 2xx upstream body.  Missing or
empty `choices` fail with `api_error`; an empty extracted `content`
fails with `empty_response_error`; otherwise the success envelope is
composed from `choices[0]` with a single assistant choice at index 0,
pass-through or zeroed `usage`, and `finish_reason` defaulted to
`"stop"`. -/
def processUpstream (requestModel : String) (d : UpstreamData) : HttpReply :=
  match d.choices with
  | none => ⟨200, .err ⟨"Invalid response - no choices", .api_error⟩⟩
  | some [] => ⟨200, .err ⟨"Invalid response - no choices", .api_error⟩⟩
  | some (choice :: _) =>
    if extractContent choice = "" then
      ⟨200, .err ⟨"Empty response", .empty_response_error⟩⟩
    else
      ⟨200, .success
        { model := requestModel
          choices := [{ index := 0
                        message := ⟨"assistant", extractContent choice⟩
                        finish_reason := choice.finish_reason.getD "stop" }]
          usage := d.usage.getD ⟨0, 0, 0⟩ }⟩

/-- Lines 97-141 and 145-237: the handler's reply as a function of the
transport outcome.  Abort yields the timeout envelope; a rethrown fetch
failure is caught by the outer handler as `server_error`; non-2xx
statuses map 429 and 401 specially and everything else to `api_error`;
a 2xx JSON body goes through `processUpstream`.  (The dynamic message
fragments - elapsed seconds, upstream error text - are not modelled.) -/
def v1Post (requestModel : String) (tr : TransportResult) : HttpReply :=
  match tr with
  | .aborted => ⟨200, .err ⟨"Timeout", .timeout_error⟩⟩
  | .fetchFailed => ⟨200, .err ⟨"Internal error", .server_error⟩⟩
  | .httpError st =>
    if st = 429 then ⟨200, .err ⟨"Rate limit exceeded. Wait 2-3 minutes.", .rate_limit_error⟩⟩
    else if st = 401 then ⟨200, .err ⟨"Invalid API key", .authentication_error⟩⟩
    else ⟨200, .err ⟨"NVIDIA API error", .api_error⟩⟩
  | .okJson d => processUpstream requestModel d

/-- The whole main handler, parameterised by the configured API key,
the request method and body, and what the transport would return. -/
def v1Handler (apiKey : Option String) (method : String) (body : RequestBody)
    (tr : TransportResult) : HttpReply :=
  match v1Pre apiKey method body with
  | .error rep => rep
  | .ok (requestModel, _) => v1Post requestModel tr

/-! ### The legacy handler `api/chat.js`, at claim fidelity

`api/chat.js` differs from the main handler in its error delivery: a
non-POST request is answered with HTTP 405, and the catch-all replies
with `error.response?.status || 500`.  Only the status/error skeleton
is modelled, which is what claim C9 is about. -/

/-- Outcome of the axios call in `api/chat.js`: resolved, or rejected
with an optional upstream status on the error object. -/
inductive ChatTransport
  | success
  | failure (upstreamStatus : Option Nat)

/-- A reply of `api/chat.js`: HTTP status and whether the body is an
error body. -/
structure ChatReply where
  status : Nat
  isError : Bool
deriving DecidableEq

/-- `error.response?.status || 500` (0 is falsy in JS). -/
def chatJsErrorStatus (st : Option Nat) : Nat :=
  match st with
  | some s => if s = 0 then 500 else s
  | none => 500

/-- The status/error skeleton of `api/chat.js` (lines 19-94). -/
def chatJs (method : String) (tr : ChatTransport) : ChatReply :=
  if method = "OPTIONS" then ⟨200, false⟩
  else if method ≠ "POST" then ⟨405, true⟩
  else
    match tr with
    | .success => ⟨200, false⟩
    | .failure st => ⟨chatJsErrorStatus st, true⟩

/-! ### Helper lemmas -/

theorem strTruthy_some_iff {s : String} : strTruthy (some s) = true ↔ s ≠ "" := by
  simp [strTruthy]

theorem strTruthy_getD_ne {o : Option String} (h : strTruthy o = true) :
    o.getD "" ≠ "" := by
  cases o with
  | none => simp [strTruthy] at h
  | some s => simpa using strTruthy_some_iff.mp h

theorem lastN_eq_drop (l : List α) (k : Nat) : lastN l k = l.drop (l.length - k) := by
  induction l with
  | nil => simp [lastN]
  | cons a tl ih =>
    unfold lastN
    rw [List.reverse_cons, List.take_append_eq_append_take, List.reverse_append]
    by_cases h : k ≤ tl.length
    · have h0 : k - tl.reverse.length = 0 := by simp; omega
      rw [h0]
      have hlen : (a :: tl).length - k = (tl.length - k) + 1 := by simp; omega
      rw [hlen, List.drop_succ_cons, ← ih]
      simp [lastN]
    · have h1 : 1 ≤ k - tl.reverse.length := by simp; omega
      rw [List.take_of_length_le (by simpa using h1),
          List.take_of_length_le (by simp; omega)]
      have hlen : tl.length + 1 - k = 0 := by omega
      simp [hlen]

theorem sliceLast_eq_lastN (l : List α) (k : Nat) : sliceLast l k = lastN l k := by
  rw [lastN_eq_drop]; rfl

theorem length_sliceLast {l : List α} {k : Nat} (h : k ≤ l.length) :
    (sliceLast l k).length = k := by
  simp [sliceLast]; omega

theorem sliceLast_of_le {l : List α} {k : Nat} (h : l.length ≤ k) :
    sliceLast l k = l := by
  have : l.length - k = 0 := by omega
  simp [sliceLast, this]

theorem sliceLast_idem (l : List α) (k : Nat) :
    sliceLast (sliceLast l k) k = sliceLast l k := by
  apply sliceLast_of_le
  simp [sliceLast]
  omega

theorem specGoodAt_succ (a : Char) (tl : List Char) (i : Nat) :
    specGoodAt (a :: tl) (i + 1) = specGoodAt tl i := by
  simp [specGoodAt, List.drop_succ_cons]

theorem specRestAt_succ (a : Char) (tl : List Char) (i : Nat) :
    specRestAt (a :: tl) (i + 1) = specRestAt tl i := by
  simp [specRestAt, List.drop_succ_cons]

theorem findLabelRest_cons (a : Char) (tl : List Char) :
    findLabelRest (a :: tl) =
      match labelRestAt (a :: tl) with
      | some r => if r.isEmpty then findLabelRest tl else some r
      | none => findLabelRest tl := rfl

theorem specHit_cons (a : Char) (tl : List Char) :
    specHit (a :: tl) =
      if specGoodAt (a :: tl) 0 then some 0 else (specHit tl).map Nat.succ := by
  unfold specHit
  rw [show (a :: tl).length = tl.length + 1 from rfl, List.range_succ_eq_map]
  cases h0 : specGoodAt (a :: tl) 0 with
  | true =>
    rw [List.find?_cons_of_pos _ h0]
    simp
  | false =>
    rw [List.find?_cons_of_neg _ (by simp [h0]), List.find?_map, if_neg (by simp)]
    have hfun : specGoodAt (a :: tl) ∘ Nat.succ = specGoodAt tl := by
      funext i
      exact specGoodAt_succ a tl i
    rw [hfun]

/-- The regex engine's left-to-right scan coincides with the
position-based description: the result is the suffix at the first
position carrying a followed label-and-colon hit. -/
theorem findLabelRest_eq (l : List Char) :
    findLabelRest l = (specHit l).map (specRestAt l) := by
  induction l with
  | nil => rfl
  | cons a tl ih =>
    rw [specHit_cons]
    cases hm : labelRestAt (a :: tl) with
    | none =>
      have h0 : specGoodAt (a :: tl) 0 = false := by
        simp [specGoodAt, hm]
      rw [if_neg (by simp [h0])]
      have hstep : findLabelRest (a :: tl) = findLabelRest tl := by
        rw [findLabelRest_cons, hm]
      rw [hstep, ih, Option.map_map]
      have hfun : specRestAt (a :: tl) ∘ Nat.succ = specRestAt tl := by
        funext i
        exact specRestAt_succ a tl i
      rw [hfun]
    | some r =>
      cases hre : r.isEmpty with
      | true =>
        have h0 : specGoodAt (a :: tl) 0 = false := by
          simp [specGoodAt, hm, hre]
        rw [if_neg (by simp [h0])]
        have hstep : findLabelRest (a :: tl) = findLabelRest tl := by
          rw [findLabelRest_cons, hm]
          show (if r.isEmpty = true then findLabelRest tl else some r) = findLabelRest tl
          rw [if_pos hre]
        rw [hstep, ih, Option.map_map]
        have hfun : specRestAt (a :: tl) ∘ Nat.succ = specRestAt tl := by
          funext i
          exact specRestAt_succ a tl i
        rw [hfun]
      | false =>
        have h0 : specGoodAt (a :: tl) 0 = true := by
          simp [specGoodAt, hm, hre]
        rw [if_pos h0]
        have hL : findLabelRest (a :: tl) = some r := by
          rw [findLabelRest_cons, hm]
          show (if r.isEmpty = true then findLabelRest tl else some r) = some r
          rw [if_neg (by simp [hre])]
        rw [hL]
        simp [specRestAt, hm]

theorem processUpstream_status (rm : String) (d : UpstreamData) :
    (processUpstream rm d).status = 200 := by
  obtain ⟨ch, u⟩ := d
  cases ch with
  | none => rfl
  | some ls =>
    cases ls with
    | nil => rfl
    | cons c cs =>
      by_cases h : extractContent c = ""
      · simp [processUpstream, h]
      · simp [processUpstream, h]

theorem v1Post_status (rm : String) (tr : TransportResult) :
    (v1Post rm tr).status = 200 := by
  cases tr with
  | aborted => rfl
  | fetchFailed => rfl
  | httpError st =>
    by_cases h1 : st = 429
    · simp [v1Post, h1]
    · by_cases h2 : st = 401 <;> simp [v1Post, h1, h2]
  | okJson d => exact processUpstream_status rm d

theorem v1Pre_error_status (k : Option String) (m : String) (b : RequestBody)
    (rep : HttpReply) (h : v1Pre k m b = .error rep) : rep.status = 200 := by
  unfold v1Pre at h
  split at h
  · simp only [Except.error.injEq] at h; rw [← h]
  · split at h
    · simp only [Except.error.injEq] at h; rw [← h]
    · split at h
      · simp only [Except.error.injEq] at h; rw [← h]
      · split at h
        · simp only [Except.error.injEq] at h; rw [← h]
        · simp at h

/-- The first truthy field of a list of optional strings, or `""`:
used to state a fallback order. -/
def firstTruthy : List (Option String) → String
  | [] => ""
  | f :: fs => if strTruthy f then f.getD "" else firstTruthy fs

/-! ### Concrete sample data for instantiations -/

/-- A choice whose message carries only a reasoning trace with a
labelled final answer. -/
def cThink : UpstreamChoice :=
  { message := some { content := none
                      reasoning_content := some "Thinking...\nFinal Answer: 42"
                      text := none }
    text := none, delta_content := none, content := none, finish_reason := none }

/-- A choice with both `message.content = "A"` and
`message.reasoning_content = "B"`. -/
def cAB : UpstreamChoice :=
  { message := some { content := some "A", reasoning_content := some "B", text := none }
    text := none, delta_content := none, content := none, finish_reason := none }

/-- A choice whose trace is exactly `"Answer:"` - a label-and-colon
occurrence with nothing after the colon. -/
def cAnswerColon : UpstreamChoice :=
  { message := some { content := none, reasoning_content := some "Answer:", text := none }
    text := none, delta_content := none, content := none, finish_reason := none }

/-- A choice carrying text only in `delta.content`. -/
def cDelta : UpstreamChoice :=
  { message := none, text := none, delta_content := some "X", content := none
    finish_reason := none }

/-- A choice carrying text only in the choice-level `content` field. -/
def cContentOnly : UpstreamChoice :=
  { message := none, text := none, delta_content := none, content := some "Y"
    finish_reason := none }

/-- A choice carrying text only in `choice.text`. -/
def cTextOnly : UpstreamChoice :=
  { message := none, text := some "from-text", delta_content := none, content := none
    finish_reason := none }

/-- Five messages, to exercise truncation with a window of 4. -/
def msgs5 : List ChatMessage :=
  [⟨"system", "s"⟩, ⟨"user", "a"⟩, ⟨"assistant", "b"⟩, ⟨"user", "c"⟩, ⟨"assistant", "d"⟩]

/-! ### Claim theorems -/

/-- C1 counterexample: the claim says an *empty* `messages` sequence is
rejected with `InvalidRequest` before any outbound call; in the code
the check `!messages || !Array.isArray(messages)` accepts the empty
array, so the handler proceeds to the outbound transport call. -/
theorem C1_counterexample :
    madeUpstreamCall (v1Pre (some "key") "POST"
      { model := none, messages := .array [], temperature := none
        max_tokens := none }) = true := rfl

/-- C1 (amended): for every POST request with a configured API key, a
`messages` field that is missing or not an array is answered with the
`invalid_request_error` envelope at status 200 and the upstream
transport is never invoked; any array value - including the empty
array - always reaches the outbound call. -/
theorem C1_invalid_messages_rejected (k : String) (hk : k ≠ "") (body : RequestBody) :
    ((body.messages = .missing ∨ body.messages = .nonArray) →
      v1Pre (some k) "POST" body =
          .error ⟨200, .err ⟨"Invalid messages", .invalid_request_error⟩⟩
        ∧ madeUpstreamCall (v1Pre (some k) "POST" body) = false)
  ∧ (∀ ms, body.messages = .array ms →
      v1Pre (some k) "POST" body = .ok (v1Shape body ms)) := by
  have htr : strTruthy (some k) = true := strTruthy_some_iff.mpr hk
  have hkey : ¬ (strTruthy (some k) = false) := by simp [htr]
  constructor
  · intro h
    have hpre : v1Pre (some k) "POST" body =
        .error ⟨200, .err ⟨"Invalid messages", .invalid_request_error⟩⟩ := by
      unfold v1Pre
      rw [if_neg (by decide), if_neg (by decide), if_neg hkey]
      rcases h with h | h <;> simp [v1Validate, h]
    exact ⟨hpre, by rw [hpre]; rfl⟩
  · intro ms hms
    unfold v1Pre
    rw [if_neg (by decide), if_neg (by decide), if_neg hkey]
    simp [v1Validate, hms]

/-- C1 witness: a POST body with `messages` missing is rejected with the
`invalid_request_error` envelope. -/
theorem C1_witness :
    v1Pre (some "key") "POST"
        { model := none, messages := .missing, temperature := none, max_tokens := none } =
      .error ⟨200, .err ⟨"Invalid messages", .invalid_request_error⟩⟩ :=
  ((C1_invalid_messages_rejected "key" (by decide)
      { model := none, messages := .missing, temperature := none, max_tokens := none }).1
    (Or.inl rfl)).1

/-- C2 counterexample: the trace `"Answer:"` contains the label
`"Answer"` followed by `:`, so by the claim the result is the trimmed
text following the label to the end of the trace, i.e. `""` (rendered
by `specRecoverOrig`, the claim's rule taken literally); the code's
regex `(.+)` requires a character after the colon, so extraction falls
to the last-non-blank-lines branch and returns `"Answer:"` instead. -/
theorem C2_counterexample :
    extractContent cAnswerColon = "Answer:"
  ∧ specRecoverOrig "Answer:" = ""
  ∧ extractContent cAnswerColon ≠ specRecoverOrig "Answer:" :=
  ⟨by decide, by decide, by decide⟩

/-- C2 (amended): when `choices[0].message.content` is falsy and
`choices[0].message.reasoning_content` is a non-empty string, the
result is: if the trace contains a label from {Final Answer, Answer,
Result, Output} followed by `:` *and at least one further character*,
the trimmed text following the first such label-and-colon occurrence
to the end of the trace; otherwise the last three non-blank lines
joined with newlines and trimmed; otherwise (no non-blank line) the
entire trace verbatim - as rendered position-wise by `specRecover`. -/
theorem C2_reasoning_extraction (c : UpstreamChoice) (r : String)
    (h1 : strTruthy (msgField c (·.content)) = false)
    (h2 : msgField c (·.reasoning_content) = some r)
    (h3 : r ≠ "") :
    extractContent c = specRecover r := by
  have htr : strTruthy (msgField c (·.reasoning_content)) = true := by
    rw [h2]; exact strTruthy_some_iff.mpr h3
  unfold extractContent
  rw [if_neg (by simp [h1]), if_pos htr, h2]
  show extractFromReasoning r = specRecover r
  unfold extractFromReasoning specRecover
  rw [findLabelRest_eq]
  cases hs : specHit r.toList with
  | some i => simp [specRestAt]
  | none =>
    show (if (nonBlankLines r).length > 0 then
        String.mk (trimChars (List.intercalate ['\n'] (sliceLast (nonBlankLines r) 3)))
      else r) =
      (if (nonBlankLines r).isEmpty then r
       else String.mk (trimChars (List.intercalate ['\n'] (lastN (nonBlankLines r) 3))))
    by_cases hl : nonBlankLines r = []
    · rw [if_neg (by simp [hl]), if_pos (by simp [hl])]
    · rw [if_pos (by simp [gt_iff_lt, List.length_pos, hl]), if_neg (by simp [hl]),
        sliceLast_eq_lastN]

/-- C2 witness: the specification's own example - a trace
`"Thinking...\nFinal Answer: 42"` with no direct content - extracts
`"42"`. -/
theorem C2_witness : extractContent cThink = "42" := by
  have h := C2_reasoning_extraction cThink "Thinking...\nFinal Answer: 42"
    (by decide) rfl (by decide)
  rw [h]
  decide

/-- C3: whenever `choices[0].message.content` is present and non-empty,
extraction returns exactly it, whatever every other field holds. -/
theorem C3_content_preferred (c : UpstreamChoice)
    (h : strTruthy (msgField c (·.content)) = true) :
    extractContent c = (msgField c (·.content)).getD "" := by
  unfold extractContent
  rw [if_pos h]

/-- C3 witness: with `message.content = "A"` and
`message.reasoning_content = "B"`, the result is `"A"`. -/
theorem C3_witness : extractContent cAB = "A" := by
  have h := C3_content_preferred cAB (by decide)
  rw [h]
  rfl

/-- C4 counterexample: a response carrying text only in
`choices[0].delta.content` would, by the claim's fallback order,
yield that text; the code never reads `delta.content` (or
`choice.content`) and extraction produces the empty string. -/
theorem C4_counterexample :
    extractContent cDelta = "" ∧ cDelta.delta_content = some "X" :=
  ⟨by decide, rfl⟩

/-- C4 (amended): when neither `message.content` nor
`message.reasoning_content` yields text, extraction tries only
`choices[0].text` and then `choices[0].message.text`, in that order,
first truthy field wins; `choices[0].delta.content` and
`choices[0].content` are never consulted (changing them never changes
the result). -/
theorem C4_fallback_fields (c : UpstreamChoice)
    (h1 : strTruthy (msgField c (·.content)) = false)
    (h2 : strTruthy (msgField c (·.reasoning_content)) = false) :
    extractContent c = firstTruthy [c.text, msgField c (·.text)]
  ∧ (∀ d k, extractContent
      { c with delta_content := d, content := k } = extractContent c) := by
  constructor
  · unfold extractContent
    rw [if_neg (by simp [h1]), if_neg (by simp [h2])]
    by_cases ht : strTruthy c.text = true
    · rw [if_pos ht]; simp [firstTruthy, ht]
    · rw [if_neg ht]
      by_cases hmt : strTruthy (msgField c (·.text)) = true
      · rw [if_pos hmt]; simp [firstTruthy, ht, hmt]
      · rw [if_neg hmt]; simp [firstTruthy, ht, hmt]
  · intro d k
    rfl

/-- C4 witness: with message fields empty and `choice.text` set,
extraction returns the `choice.text` value. -/
theorem C4_witness : extractContent cTextOnly = "from-text" := by
  have h := (C4_fallback_fields cTextOnly (by decide) (by decide)).1
  rw [h]
  decide

/-- C5 counterexample: a response whose only non-empty field is the
choice-level `content` ("Y") - a field of the upstream response
holding non-empty text - nevertheless fails with `EmptyResponse`,
because the code never reads that field; so "EmptyResponse exactly
when no field of the upstream response yields non-empty text" is
false. -/
theorem C5_counterexample :
    processUpstream "gpt-4o" ⟨some [cContentOnly], none⟩ =
        ⟨200, .err ⟨"Empty response", .empty_response_error⟩⟩
  ∧ cContentOnly.content = some "Y" :=
  ⟨by decide, rfl⟩

/-- C5 (amended): extraction fails with `EmptyResponse` exactly when
the extraction chain the code runs (`message.content`;
reasoning-trace recovery; `choices[0].text`; `message.text`) produces
the empty string - text present only in `delta.content` or the
choice-level `content` does not prevent the failure - and on every
success the envelope's `choices[0].message.content` is a non-empty
string. -/
theorem C5_no_empty_success (rm : String) (d : UpstreamData) (c : UpstreamChoice)
    (cs : List UpstreamChoice) (h : d.choices = some (c :: cs)) :
    (processUpstream rm d = ⟨200, .err ⟨"Empty response", .empty_response_error⟩⟩
      ↔ extractContent c = "")
  ∧ (∀ b, processUpstream rm d = ⟨200, .success b⟩ →
      ∃ ch, b.choices = [ch] ∧ ch.message.content = extractContent c
        ∧ ch.message.content ≠ "")
  ∧ (extractContent c = "" ↔
      (strTruthy (msgField c (·.content)) = false ∧
        ((strTruthy (msgField c (·.reasoning_content)) = true ∧
            extractFromReasoning ((msgField c (·.reasoning_content)).getD "") = "")
          ∨ (strTruthy (msgField c (·.reasoning_content)) = false ∧
              strTruthy c.text = false ∧ strTruthy (msgField c (·.text)) = false)))) := by
  have hP : processUpstream rm d =
      (if extractContent c = "" then
        ⟨200, .err ⟨"Empty response", .empty_response_error⟩⟩
      else
        ⟨200, .success
          { model := rm
            choices := [{ index := 0
                          message := ⟨"assistant", extractContent c⟩
                          finish_reason := c.finish_reason.getD "stop" }]
            usage := d.usage.getD ⟨0, 0, 0⟩ }⟩ : HttpReply) := by
    unfold processUpstream
    rw [h]
  refine ⟨?_, ?_, ?_⟩
  · by_cases he : extractContent c = ""
    · rw [hP, if_pos he]; simp [he]
    · rw [hP, if_neg he]; simp [he]
  · intro b hb
    rw [hP] at hb
    by_cases he : extractContent c = ""
    · rw [if_pos he] at hb; simp at hb
    · rw [if_neg he] at hb
      simp only [HttpReply.mk.injEq, ReplyBody.success.injEq, true_and] at hb
      refine ⟨⟨0, ⟨"assistant", extractContent c⟩, c.finish_reason.getD "stop"⟩, ?_, rfl, he⟩
      rw [← hb]
  · unfold extractContent
    cases h1 : strTruthy (msgField c (·.content)) with
    | true =>
      have hne := strTruthy_getD_ne h1
      simp [hne]
    | false =>
      cases h2 : strTruthy (msgField c (·.reasoning_content)) with
      | true => simp
      | false =>
        cases h3 : strTruthy c.text with
        | true =>
          have hne := strTruthy_getD_ne h3
          simp [hne]
        | false =>
          cases h4 : strTruthy (msgField c (·.text)) with
          | true =>
            have hne := strTruthy_getD_ne h4
            simp [hne]
          | false => simp

/-- C5 witness: the empty-response criterion instantiated at a choice
with content "A": the handler does not fail with `EmptyResponse`. -/
theorem C5_witness :
    processUpstream "m" ⟨some [cAB], none⟩ =
        ⟨200, .err ⟨"Empty response", .empty_response_error⟩⟩
      ↔ extractContent cAB = "" :=
  (C5_no_empty_success "m" ⟨some [cAB], none⟩ cAB [] rfl).1

/-- C6: a 2xx upstream body whose `choices` is absent or the empty
sequence is answered with the `api_error` envelope ("Invalid response
- no choices") before any content-field inspection; totality of
`processUpstream` models the absence of a crash. -/
theorem C6_malformed (rm : String) (d : UpstreamData)
    (h : d.choices = none ∨ d.choices = some []) :
    processUpstream rm d = ⟨200, .err ⟨"Invalid response - no choices", .api_error⟩⟩ := by
  rcases h with h | h
  · unfold processUpstream; rw [h]
  · unfold processUpstream; rw [h]

/-- C6 witness: `choices: []` yields the malformed-upstream error. -/
theorem C6_witness :
    processUpstream "gpt-4o" ⟨some [], some ⟨1, 2, 3⟩⟩ =
      ⟨200, .err ⟨"Invalid response - no choices", .api_error⟩⟩ :=
  C6_malformed "gpt-4o" ⟨some [], some ⟨1, 2, 3⟩⟩ (Or.inr rfl)

/-- C7: truncation keeps the last K messages in original order, with
K = 4 exactly when the resolved upstream model id contains "z-ai" or
"deepseek" and K = 10 otherwise; for length ≤ K it is the identity,
and it is idempotent. -/
theorem C7_truncation (m : String) (ms : List ChatMessage) :
    isSlowModel m = (strIncludes m "z-ai" || strIncludes m "deepseek")
  ∧ (isSlowModel m = true → windowK (isSlowModel m) = 4)
  ∧ (isSlowModel m = false → windowK (isSlowModel m) = 10)
  ∧ (ms.length > windowK (isSlowModel m) →
      limitMessages (isSlowModel m) ms = lastN ms (windowK (isSlowModel m))
      ∧ (limitMessages (isSlowModel m) ms).length = windowK (isSlowModel m))
  ∧ (ms.length ≤ windowK (isSlowModel m) → limitMessages (isSlowModel m) ms = ms)
  ∧ limitMessages (isSlowModel m) (limitMessages (isSlowModel m) ms)
      = limitMessages (isSlowModel m) ms := by
  refine ⟨rfl, ?_, ?_, ?_, ?_, ?_⟩
  · intro h; rw [h]; decide
  · intro h; rw [h]; decide
  · intro h
    exact ⟨sliceLast_eq_lastN ms _, length_sliceLast (le_of_lt h)⟩
  · intro h
    exact sliceLast_of_le h
  · exact sliceLast_idem ms _

/-- C7 witness: on the slow-tier model id "z-ai/glm4.7" (window 4),
five messages truncate to their last four in original order. -/
theorem C7_witness :
    limitMessages (isSlowModel "z-ai/glm4.7") msgs5
      = lastN msgs5 (windowK (isSlowModel "z-ai/glm4.7")) :=
  ((C7_truncation "z-ai/glm4.7" msgs5).2.2.2.1 (by decide)).1

/-- C8 counterexample: on the slow tier, the requested value 0 is ≤ the
ceiling 1024 yet clamps to 512, not 0 (JS `||` treats 0 as absent),
and monotonicity fails between the inputs 0 and 1. -/
theorem C8_counterexample :
    clampTokens true (some 0) = 512 ∧ clampTokens true (some 1) = 1
  ∧ ¬ (clampTokens true (some 0) ≤ clampTokens true (some 1)) := by
  refine ⟨by decide, by decide, by decide⟩

/-- C8 (amended): clamping is `min(requested-or-default, ceiling)` with
default 512 / ceiling 1024 on the slow tier and 1024 / 2048 on the
fast tier; the output never exceeds the tier ceiling; on *non-zero*
integer inputs it is monotonic and equals the input whenever the input
is at most the ceiling; the input 0 is treated as absent and maps to
the default. -/
theorem C8_clamping (s : Bool) (mt : Option Int) (m n : Int) :
    clampTokens s mt = min (numOr mt (if s then 512 else 1024)) (if s then 1024 else 2048)
  ∧ clampTokens true none = 512 ∧ clampTokens false none = 1024
  ∧ clampTokens true (some 0) = 512
  ∧ clampTokens s mt ≤ (if s then 1024 else 2048)
  ∧ (m ≠ 0 → n ≠ 0 → m ≤ n → clampTokens s (some m) ≤ clampTokens s (some n))
  ∧ (m ≠ 0 → m ≤ (if s then 1024 else 2048) → clampTokens s (some m) = m) := by
  refine ⟨?_, by decide, by decide, by decide, ?_, ?_, ?_⟩
  · cases s <;> rfl
  · cases s with
    | false => simp [clampTokens]
    | true => simp [clampTokens]
  · intro hm hn hmn
    cases s with
    | false =>
      show min (numOr (some m) 1024) 2048 ≤ min (numOr (some n) 1024) 2048
      rw [show numOr (some m) 1024 = m from by simp [numOr, hm],
          show numOr (some n) 1024 = n from by simp [numOr, hn]]
      exact min_le_min hmn le_rfl
    | true =>
      show min (numOr (some m) 512) 1024 ≤ min (numOr (some n) 512) 1024
      rw [show numOr (some m) 512 = m from by simp [numOr, hm],
          show numOr (some n) 512 = n from by simp [numOr, hn]]
      exact min_le_min hmn le_rfl
  · intro hm hle
    cases s with
    | false =>
      show min (numOr (some m) 1024) 2048 = m
      rw [show numOr (some m) 1024 = m from by simp [numOr, hm]]
      exact min_eq_left (by simpa using hle)
    | true =>
      show min (numOr (some m) 512) 1024 = m
      rw [show numOr (some m) 512 = m from by simp [numOr, hm]]
      exact min_eq_left (by simpa using hle)

/-- C8 witness: monotonicity on the slow tier at the non-zero inputs
3 ≤ 5. -/
theorem C8_witness : clampTokens true (some 3) ≤ clampTokens true (some 5) :=
  (C8_clamping true (some 3) 3 5).2.2.2.2.2.1 (by decide) (by decide) (by decide)

/-- C9 counterexample: the legacy handler `api/chat.js` answers a GET
request - a failure outcome carrying an error body - with HTTP 405,
not 200. -/
theorem C9_counterexample : chatJs "GET" .success = ⟨405, true⟩ := by decide

/-- C9 (amended): every outcome of the v1 chat-completions handler -
failures included - carries HTTP status 200; the legacy `api/chat.js`
handler instead returns 405 for non-POST, non-OPTIONS methods, and
`error.response.status`-or-500 when the upstream call fails. -/
theorem C9_status_policy :
    (∀ (k : Option String) (method : String) (b : RequestBody) (tr : TransportResult),
      (v1Handler k method b tr).status = 200)
  ∧ (∀ (method : String) (tr : ChatTransport),
      method ≠ "OPTIONS" → method ≠ "POST" → chatJs method tr = ⟨405, true⟩)
  ∧ (∀ st, chatJs "POST" (.failure st) = ⟨chatJsErrorStatus st, true⟩) := by
  refine ⟨?_, ?_, ?_⟩
  · intro k method b tr
    unfold v1Handler
    cases hpre : v1Pre k method b with
    | error rep => exact v1Pre_error_status k method b rep hpre
    | ok p =>
      obtain ⟨rm, nr⟩ := p
      exact v1Post_status rm tr
  · intro method tr h1 h2
    unfold chatJs
    rw [if_neg h1, if_pos h2]
  · intro st
    unfold chatJs
    rw [if_neg (by decide), if_neg (by decide)]

/-- C9 witness: `api/chat.js` answers a PUT request with 405. -/
theorem C9_witness : chatJs "PUT" .success = ⟨405, true⟩ :=
  C9_status_policy.2.1 "PUT" .success (by decide) (by decide)

/-- C10: the success envelope is built from `choices[0]` alone - extra
upstream choices never influence the reply - and contains exactly one
choice, at index 0, with role "assistant". -/
theorem C10_single_choice (rm : String) (c : UpstreamChoice)
    (rest : List UpstreamChoice) (u : Option Usage) :
    processUpstream rm ⟨some (c :: rest), u⟩ = processUpstream rm ⟨some [c], u⟩
  ∧ (∀ b, processUpstream rm ⟨some (c :: rest), u⟩ = ⟨200, .success b⟩ →
      b.choices = [⟨0, ⟨"assistant", extractContent c⟩, c.finish_reason.getD "stop"⟩]) := by
  constructor
  · rfl
  · intro b hb
    have hP : processUpstream rm ⟨some (c :: rest), u⟩ =
        (if extractContent c = "" then
          ⟨200, .err ⟨"Empty response", .empty_response_error⟩⟩
        else
          ⟨200, .success
            { model := rm
              choices := [⟨0, ⟨"assistant", extractContent c⟩, c.finish_reason.getD "stop"⟩]
              usage := u.getD ⟨0, 0, 0⟩ }⟩ : HttpReply) := rfl
    rw [hP] at hb
    by_cases he : extractContent c = ""
    · rw [if_pos he] at hb
      simp at hb
    · rw [if_neg he] at hb
      simp only [HttpReply.mk.injEq, ReplyBody.success.injEq, true_and] at hb
      rw [← hb]

/-- C10 witness: appending a second upstream choice does not change the
reply. -/
theorem C10_witness :
    processUpstream "gpt-4" ⟨some [cAB, cDelta], none⟩ =
      processUpstream "gpt-4" ⟨some [cAB], none⟩ :=
  (C10_single_choice "gpt-4" cAB [cDelta] none).1
